import Mathlib

/-!
Verification of the Tool Orchestration & Resource-Managed Execution Engine
of the agent_workflow repository (files
`agent_workflow/core/tool_executor.py` and `agent_workflow/core/task_agent.py`),
as a shallow embedding in Lean 4.

Language-model calls, tool bodies and the tool-specific result formatters are
external collaborators of the engine; they are modelled as explicit oracle
arguments (a per-attempt outcome function), while every piece of control flow,
retry accounting, validation, filtering, sorting and aggregation logic of the
engine itself is translated directly from the Python source.
-/

namespace AW

/-- JSON values, as produced by `json.loads` on a model response.  Python
`None`/`bool`/`int`/`str`/`list`/`dict` are the shapes the engine inspects. -/
inductive Json where
  | null : Json
  | jbool : Bool → Json
  | jnum : Int → Json
  | jstr : String → Json
  | jarr : List Json → Json
  | jobj : List (String × Json) → Json

/-- Python `str()` on a JSON-shaped value: a total printer.  (On the values the
engine handles, `str` never raises.) -/
def pyStr : Json → String
  | .null => "None"
  | .jbool true => "True"
  | .jbool false => "False"
  | .jnum n => toString n
  | .jstr s => s
  | .jarr xs => "[" ++ String.intercalate ", " (xs.attach.map (fun x => pyStr x.1)) ++ "]"
  | .jobj fs => "\x7b" ++ String.intercalate ", " (fs.attach.map (fun f => f.1.1 ++ ": " ++ pyStr f.1.2)) ++ "\x7d"
decreasing_by
  · have h := List.sizeOf_lt_of_mem x.2
    simp only [Json.jarr.sizeOf_spec]
    omega
  · have h := List.sizeOf_lt_of_mem f.2
    obtain ⟨⟨a, b⟩, hab⟩ := f
    simp only [Prod.mk.sizeOf_spec] at h
    simp only [Json.jobj.sizeOf_spec]
    omega

/-- `dict.get(key)` on a JSON object field list: first binding wins. -/
def jsonGet (fields : List (String × Json)) (key : String) : Option Json :=
  fields.lookup key

/-- `dict.get(key, default)`. -/
def jsonGetD (fields : List (String × Json)) (key : String) (dflt : Json) : Json :=
  (jsonGet fields key).getD dflt

/-! ## Parameter schema and `ParameterOptimizer._validate_parameters`
(`tool_executor.py` lines 449-495) -/

/-- One element of a schema `enum` list: either a plain JSON scalar or a
`{name, description}` object (the two shapes `_validate_parameters`
distinguishes). -/
inductive EnumItem where
  | prim : Json → EnumItem
  | obj : (name : String) → (description : String) → EnumItem

/-- Is this enum element a `{name, description}` object (`isinstance(x, dict)`)? -/
def EnumItem.isObj : EnumItem → Bool
  | .prim _ => false
  | .obj _ _ => true

/-- The `name` field of an object enum element. -/
def EnumItem.objName : EnumItem → Option String
  | .prim _ => none
  | .obj n _ => some n

/-- Schema information for one parameter: the `required` flag and the optional
`enum` constraint.  (`type`/`minimum`/`maximum`/`description` are only echoed
into the prompt, never checked, so they are not needed here.) -/
structure ParamInfo where
  required : Bool
  enum : Option (List EnumItem)

/-- Python `==` on the scalar JSON values that appear in the tool schemas
(strings, numbers, booleans, `None`; a bool equals its numeric value, as in
Python). -/
def pyScalarEq : Json → Json → Bool
  | .jstr a, .jstr b => a == b
  | .jnum a, .jnum b => a == b
  | .jbool a, .jbool b => a == b
  | .jbool a, .jnum n => (if a then (1 : Int) else 0) == n
  | .jnum n, .jbool b => n == (if b then (1 : Int) else 0)
  | .null, .null => true
  | _, _ => false

/-- The enum membership test of `_validate_parameters`: when every element of
the enum list is a dict (`all(isinstance(x, dict) for x in enum_values)` —
vacuously true for an empty list), the allowed values are the `name` fields
(a non-string supplied value is then never a member); otherwise plain `in`
membership against the list, on which an object element never equals a scalar
supplied value. -/
def enumCheck (items : List EnumItem) (v : Json) : Bool :=
  if items.all EnumItem.isObj then
    match v with
    | .jstr s => (items.filterMap EnumItem.objName).contains s
    | _ => false
  else
    items.any (fun it =>
      match it with
      | .prim w => pyScalarEq w v
      | .obj _ _ => false)

/-- The claim-side reading of the enum constraint: the supplied value is one
of the allowed values, where for an enum given as a list of
`{name, description}` objects the allowed values are those objects' `name`
fields. -/
def isAllowedValue (items : List EnumItem) (v : Json) : Prop :=
  if items.all EnumItem.isObj then
    ∃ s, v = .jstr s ∧ s ∈ items.filterMap EnumItem.objName
  else
    ∃ w, EnumItem.prim w ∈ items ∧ pyScalarEq w v = true

/-- `ParameterOptimizer._validate_parameters` (lines 449-495): every
`required` parameter of the schema must be present among the supplied
parameters, and every supplied value whose parameter carries an `enum`
constraint must pass the enum membership test.  Supplied parameters that the
schema does not know are skipped. -/
def _validate_parameters (parameters : List (String × Json))
    (schema : List (String × ParamInfo)) : Bool :=
  (schema.all fun p => !p.2.required || parameters.any (fun q => q.1 == p.1))
    && parameters.all fun q =>
      match schema.lookup q.1 with
      | none => true
      | some info =>
        match info.enum with
        | none => true
        | some items => enumCheck items q.2

/-! ## System monitor and resource manager
(`task_agent.py` lines 165-237 and 332-366) -/

/-- `SystemLoad` (`task_agent.py` lines 165-173): one load snapshot. -/
structure SystemLoad where
  cpu_percent : ℚ
  memory_percent : ℚ
  disk_usage_percent : ℚ
  num_threads : ℕ
  process_count : ℕ
  timestamp : ℕ

/-- `SystemMonitor` thresholds (`task_agent.py` lines 178-184). -/
structure SystemMonitor where
  cpu_threshold : ℚ
  memory_threshold : ℚ
  disk_threshold : ℚ

/-- The monitor that `ResourceManager.__init__` constructs (lines 338-342):
CPU 80 %, memory 85 %, disk 90 % — the same values as the constructor
defaults. -/
def defaultMonitor : SystemMonitor :=
  { cpu_threshold := 80, memory_threshold := 85, disk_threshold := 90 }

/-- `SystemMonitor.is_system_overloaded` (lines 222-237), evaluated on a
given load snapshot: overloaded when any of the three utilizations strictly
exceeds its threshold. -/
def is_system_overloaded (m : SystemMonitor) (load : SystemLoad) : Bool :=
  decide (load.cpu_percent > m.cpu_threshold)
    || decide (load.memory_percent > m.memory_threshold)
    || decide (load.disk_usage_percent > m.disk_threshold)

/-- The mutable state of `ResourceManager`: free semaphore permits and the
registered active task set (task handles as numbers). -/
structure RMState where
  semaphoreSlots : ℕ
  active_tasks : List ℕ

/-- Outcome of one `acquire()` call: refusal (returns `False`), success
(returns `True` holding a permit), or suspension on the exhausted semaphore. -/
inductive AcquireOutcome where
  | refused : AcquireOutcome
  | acquired : AcquireOutcome
  | blocked : AcquireOutcome
deriving DecidableEq, Repr

/-- `ResourceManager.acquire` (`task_agent.py` lines 345-358): if the monitor
reports overload, return `False` immediately, leaving the semaphore and the
active-task set untouched; otherwise take a semaphore permit (suspending when
none is free) and register the current task. -/
def acquire (m : SystemMonitor) (load : SystemLoad) (st : RMState)
    (taskHandle : ℕ) : AcquireOutcome × RMState :=
  if is_system_overloaded m load then
    (.refused, st)
  else if st.semaphoreSlots > 0 then
    (.acquired, { semaphoreSlots := st.semaphoreSlots - 1,
                  active_tasks := taskHandle :: st.active_tasks })
  else
    (.blocked, st)

/-! ## `ToolExecutor.format_result` (`tool_executor.py` lines 832-867) -/

/-- The dictionary `format_result` returns: a display string and a link list. -/
structure FormattedResult where
  result : String
  links : List String
deriving DecidableEq, Repr

/-- The tool names whose branch of `format_result` delegates to a
tool-specific `ResultFormatter` method. -/
def usesSpecificFormatter (tool_name : String) (res : Json) : Bool :=
  (tool_name == "SearchTool" && (match res with | .jobj _ => true | _ => false))
    || tool_name == "WeatherTool"
    || tool_name == "FileConverterTool"
    || tool_name == "DescriptionImageTool"
    || tool_name == "ImageGeneratorTool"
    || tool_name == "AudioTool"

/-- The `try`-block of `format_result`: dispatch on the tool name.  The
tool-specific `ResultFormatter` methods are external to the engine and are
modelled by the oracle `fmt`, which returns the produced output lines and
links, or raises (`.error`).  `ChatTool` and unrecognized tool names are
formatted inline and cannot raise.  Only the `SearchTool` branch produces
links; the other specific branches leave `links = []` as in the source. -/
def format_result_body (fmt : String → Json → Except String (List String × List String))
    (tool_name : String) (res : Json) : Except String FormattedResult :=
  if usesSpecificFormatter tool_name res then
    match fmt tool_name res with
    | .error e => .error e
    | .ok (output, links) =>
        .ok { result := String.intercalate "\n" output,
              links := if tool_name == "SearchTool" then links else [] }
  else if tool_name == "ChatTool" then
    .ok { result := pyStr res, links := [] }
  else
    .ok { result := String.intercalate "\n"
            ["----------" ++ tool_name ++ "----------", pyStr res],
          links := [] }

/-- `ToolExecutor.format_result`: the `try/except` wrapper.  A formatter
exception is caught and turned into an error-message result that embeds the
stringified original result, with an empty link list. -/
def format_result (fmt : String → Json → Except String (List String × List String))
    (tool_name : String) (res : Json) : FormattedResult :=
  match format_result_body fmt tool_name res with
  | .ok r => r
  | .error e =>
      { result := "结果格式化失败: " ++ e ++ "\n原始结果: " ++ pyStr res,
        links := [] }

/-! ## Progress events

Every component of the engine is an async generator that yields progress
dictionaries; the trace of those yields is modelled as a list of events.
The constructors tag the distinct yields of the source (their `content`
strings are fixed literals in the source, so tags suffice). -/

/-- One yielded progress/result event, or an awaited sleep. -/
inductive Event where
  /-- a `thinking_process` yield whose content is a fixed literal -/
  | thinkingAnalyze : Event
  /-- the `[Debug] 意图分析结果` yield of `execute_tools` -/
  | intentDebug : Event
  /-- the `未找到合适的工具` error yield -/
  | errorNoTool : Event
  /-- the `开始串行模式执行任务` yield of `serial_execute_tools` -/
  | serialStart : Event
  /-- execution of the task with this id begins (its `_execute_single_tool` call starts) -/
  | taskStart : String → Event
  /-- the `tool_complete` yield for this task id -/
  | taskComplete : String → Event
  /-- `_execute_single_tool` for this task id raised its terminal failure -/
  | taskFailedEv : String → Event
  /-- the final aggregate yield (`status`/`result`/`link`) -/
  | aggregateEv : Event
  /-- one full `ParameterOptimizer.optimize_parameters` call ran -/
  | optimizerRun : Event
  /-- the optimizer's `参数优化失败，正在重试...` retry notice -/
  | retryNotice : Event
  /-- the optimizer's `达到最大重试次数，返回空参数...` notice -/
  | maxRetryNotice : Event
  /-- the executor's `执行失败，准备重试...` retry notice -/
  | retryFailNotice : Event
  /-- the executor's `工具执行返回空结果，准备重试...` retry notice -/
  | retryEmptyNotice : Event
  /-- the executor's `结果格式化失败，准备重试...` retry notice -/
  | retryFormatNotice : Event
  /-- the executor's terminal error yield before it raises the task failure -/
  | errorNotice : Event
  /-- an awaited `asyncio.sleep` -/
  | delay : Event
deriving DecidableEq, Repr

/-! ## `ToolIntentParser.parse_intent` (`tool_executor.py` lines 177-231)

The single model call and `json.loads` after `_clean_response` are external;
their joint outcome is the parameter `response`: `none` when cleaning still
left unparsable text (`json.loads` raised), `some j` for the parsed value. -/

/-- One validated task of a plan, as `parse_intent` builds it: `tool_name` is
known to be a registered tool name, the other fields are kept as the model
gave them (with the source's defaults). -/
structure PTask where
  id : Json
  tool_name : String
  reason : Json
  order : Json
  depends_on : Json

/-- The dictionary `parse_intent` returns.  On the exception path the source
returns a dictionary holding only `tasks`, hence the optional mode/strategy. -/
structure PIntent where
  tasks : List PTask
  execution_mode : Option Json
  execution_strategy : Option Json

/-- Membership test `tool_name not in self.tools` for the raw `tool_name`
value of a candidate task: a string is looked up among the registered names;
other hashable values are never keys of the registry dict; an unhashable
value (list/dict) makes the lookup raise `TypeError` (`.error`). -/
def toolNameLookup (tools : List String) : Json → Except Unit (Option String)
  | .jstr s => .ok (if tools.contains s then some s else none)
  | .jarr _ => .error ()
  | .jobj _ => .error ()
  | _ => .ok none

/-- Python iteration over the value of `result.get("tasks", [])`: a list
yields its elements, a string its characters, a dict its keys; iterating a
number/bool/`None` raises `TypeError`. -/
def iterElems : Json → Except Unit (List Json)
  | .jarr xs => .ok xs
  | .jstr s => .ok (s.toList.map (fun c => Json.jstr (String.singleton c)))
  | .jobj fs => .ok (fs.map (fun f => Json.jstr f.1))
  | _ => .error ()

/-- The validation loop of `parse_intent` (lines 197-212): non-dict candidates
are skipped, candidates naming an unregistered tool are skipped, kept tasks
get the source's defaults (`id` = `task_<n+1>`, `order` = `n+1` with `n` the
number of already-kept tasks). -/
def buildTasks (tools : List String) : List Json → List PTask → Except Unit (List PTask)
  | [], acc => .ok acc.reverse
  | j :: rest, acc =>
    match j with
    | .jobj fields =>
      match toolNameLookup tools (jsonGetD fields "tool_name" Json.null) with
      | .error _ => .error ()
      | .ok none => buildTasks tools rest acc
      | .ok (some s) =>
        buildTasks tools rest
          ({ id := jsonGetD fields "id" (.jstr ("task_" ++ toString (acc.length + 1))),
             tool_name := s,
             reason := jsonGetD fields "reason" (.jstr ""),
             order := jsonGetD fields "order" (.jnum (acc.length + 1)),
             depends_on := jsonGetD fields "depends_on" (.jarr []) } :: acc)
    | _ => buildTasks tools rest acc

/-- `ToolIntentParser.parse_intent`: parse the cleaned model response, filter
the candidate tasks against the registry, attach mode/strategy defaults.  Any
exception on the way (unparsable response, non-dict response, unhashable
`tool_name`, non-iterable `tasks` value) is caught by the surrounding
`try/except`, which returns the empty plan. -/
def parse_intent (tools : List String) (response : Option Json) : PIntent :=
  match response with
  | none => { tasks := [], execution_mode := none, execution_strategy := none }
  | some j =>
    match j with
    | .jobj fields =>
      match iterElems (jsonGetD fields "tasks" (.jarr [])) with
      | .error _ => { tasks := [], execution_mode := none, execution_strategy := none }
      | .ok elems =>
        match buildTasks tools elems [] with
        | .error _ => { tasks := [], execution_mode := none, execution_strategy := none }
        | .ok ts =>
            { tasks := ts,
              execution_mode := some (jsonGetD fields "execution_mode" (.jstr "串行")),
              execution_strategy :=
                some (jsonGetD fields "execution_strategy"
                  (.jobj [("parallel_groups", .jarr []),
                          ("reason", .jstr "默认串行执行")])) }
    | _ => { tasks := [], execution_mode := none, execution_strategy := none }

/-! ## `ParameterOptimizer.optimize_parameters` (`tool_executor.py` lines 272-393)

One attempt = one model call plus JSON parsing plus `_validate_parameters`.
The model call and JSON parsing are external; attempt `n`'s outcome is
`oracle n`: `none` when `json.loads` raised even on the cleaned content,
`some obj` for the parsed response object. -/

/-- Result object of one optimizer call: the parsed response object's
bindings of tool name to parameter dictionary. -/
abbrev RespObj := List (String × List (String × Json))

/-- Whether attempt `n` of the optimizer succeeds, and with which parameters:
the response must parse, contain a binding for `tool_name`, and the bound
parameters must pass `_validate_parameters` against the tool's schema;
otherwise the attempt raises (`ValueError` / `JSONDecodeError`) into the
retry handler. -/
def attemptResult (schema : List (String × ParamInfo)) (tool_name : String)
    (resp : Option RespObj) : Option RespObj :=
  match resp with
  | none => none
  | some obj =>
    match obj.lookup tool_name with
    | none => none
    | some params =>
        if _validate_parameters params schema then some obj else none

/-- Output of one `optimize_parameters` call: how many attempts (model calls)
it made, the yielded progress events, and the content of its final `result`
yield. -/
structure OptOut where
  attempts : ℕ
  events : List Event
  result : RespObj

/-- The retry loop of `optimize_parameters`, recursing on the remaining
attempt budget (`max_retries - current_retry`, initially 3).  A failed
attempt yields the retry notice, sleeps, and on the last attempt yields the
give-up notice and the empty parameter object; when the `while` guard is
reached exhausted the trailing yield of the source returns the empty
parameter object as well. -/
def optLoop (schema : List (String × ParamInfo)) (tool_name : String)
    (oracle : ℕ → Option RespObj) :
    (budget attempts : ℕ) → (events : List Event) → OptOut
  | 0, attempts, events =>
      { attempts := attempts, events := events, result := [(tool_name, [])] }
  | budget + 1, attempts, events =>
    match attemptResult schema tool_name (oracle attempts) with
    | some obj =>
        { attempts := attempts + 1,
          events := events ++ [.delay],
          result := obj }
    | none =>
        if budget = 0 then
          { attempts := attempts + 1,
            events := events ++ [.delay, .retryNotice, .delay, .maxRetryNotice, .delay],
            result := [(tool_name, [])] }
        else
          optLoop schema tool_name oracle budget (attempts + 1)
            (events ++ [.delay, .retryNotice, .delay, .delay])

/-- `ParameterOptimizer.optimize_parameters` with `max_retries = 3`. -/
def optimize_parameters (schema : List (String × ParamInfo)) (tool_name : String)
    (oracle : ℕ → Option RespObj) : OptOut :=
  optLoop schema tool_name oracle 3 0 []

/-! ## `ToolExecutor._execute_single_tool` (`tool_executor.py` lines 544-650)

The per-task retry loop (`max_retries = 3`).  Each iteration runs the
parameter optimizer (which never raises), then — only inside the
`if verbose:` block of the source — invokes the tool and formats its result.
The tool call and the formatting step are external; iteration `n`'s
environment is `envs n`. -/

/-- What the tool call does in one iteration: raise, return `None`, or return
a usable result. -/
inductive ToolBehavior where
  | raises : ToolBehavior
  | returnsNone : ToolBehavior
  | returnsValue : ToolBehavior
deriving DecidableEq, Repr

/-- External behavior of one loop iteration: the tool call's outcome and
whether `format_result` raises on the returned value. -/
structure IterEnv where
  tool : ToolBehavior
  formatFails : Bool
deriving DecidableEq, Repr

/-- How the whole per-task loop ended. -/
inductive LoopOutcome where
  /-- the `tool_complete` result was yielded and the loop `break`s -/
  | success : LoopOutcome
  /-- the terminal `raise Exception(达到最大重试次数...)` -/
  | taskFailed : LoopOutcome
  /-- the loop is still running after the given fuel (final `current_retry` recorded) -/
  | outOfFuel : ℕ → LoopOutcome
  /-- the `while` guard failed (unreachable from `current_retry < 3` states) -/
  | fellThrough : LoopOutcome
deriving DecidableEq, Repr

/-- What the loop produced: number of tool invocations, yielded events, end
state. -/
structure LoopOut where
  invocations : ℕ
  events : List Event
  outcome : LoopOutcome
deriving DecidableEq, Repr

/-- One iteration either continues the `while` loop with a new
`current_retry`, or stops it (success `break`, terminal raise). -/
inductive IterStep where
  | next : (retry : ℕ) → (invoked : ℕ) → (events : List Event) → IterStep
  | stop : LoopOutcome → (invoked : ℕ) → (events : List Event) → IterStep
deriving DecidableEq, Repr

/-- The `except` handler of the loop (lines 631-650): `current_retry += 1`;
at the bound, yield the error result and raise the task-level failure;
otherwise yield the retry notice and sleep. -/
def exceptHandler (retry invoked : ℕ) : IterStep :=
  if retry + 1 ≥ 3 then
    .stop .taskFailed invoked [.optimizerRun, .errorNotice]
  else
    .next (retry + 1) invoked [.optimizerRun, .retryFailNotice, .delay]

/-- One iteration of the `while current_retry < max_retries` body.  The
parameter optimization always runs (and never raises).  The tool invocation,
the `None`-result check, the formatting step, the `tool_complete` yield and
the `break` are all nested inside `if verbose:` in the source, so with
`verbose = False` the iteration does nothing further and leaves
`current_retry` unchanged. -/
def execIter (verbose : Bool) (retry : ℕ) (env : IterEnv) : IterStep :=
  if verbose then
    match env.tool with
    | .raises => exceptHandler retry 1
    | .returnsNone =>
        if retry < 3 - 1 then
          .next (retry + 1) 1 [.optimizerRun, .retryEmptyNotice, .delay]
        else
          exceptHandler retry 1
    | .returnsValue =>
        if env.formatFails then
          if retry < 3 - 1 then
            .next (retry + 1) 1 [.optimizerRun, .retryFormatNotice, .delay]
          else
            exceptHandler retry 1
        else
          .stop .success 1 [.optimizerRun, .taskComplete ""]
  else
    .next retry 0 [.optimizerRun]

/-- The `while current_retry < max_retries` loop, driven by `fuel` iterations
at most (the loop itself has no fuel: when the source loop does not
terminate, every finite prefix ends `outOfFuel`). -/
def execLoop (verbose : Bool) (envs : ℕ → IterEnv) :
    (fuel iter retry invocations : ℕ) → (events : List Event) → LoopOut
  | 0, _, retry, invocations, events =>
      { invocations := invocations, events := events, outcome := .outOfFuel retry }
  | fuel + 1, iter, retry, invocations, events =>
    if retry < 3 then
      match execIter verbose retry (envs iter) with
      | .next r invoked devs =>
          execLoop verbose envs fuel (iter + 1) r (invocations + invoked) (events ++ devs)
      | .stop oc invoked devs =>
          { invocations := invocations + invoked,
            events := events ++ devs, outcome := oc }
    else
      { invocations := invocations, events := events, outcome := .fellThrough }

/-- `ToolExecutor._execute_single_tool`: the loop entered with
`current_retry = 0`, observed for `fuel` iterations. -/
def _execute_single_tool (verbose : Bool) (envs : ℕ → IterEnv) (fuel : ℕ) : LoopOut :=
  execLoop verbose envs fuel 0 0 0 []

/-! ## `ToolExecutor.serial_execute_tools` (`tool_executor.py` lines 725-830)
and `ToolExecutor.execute_tools` (lines 652-696)

`_execute_single_tool`'s end-to-end outcome for one task is abstracted by the
oracle `exec`: given the task and the accumulated context it either produces
the task's final result entry (the `tool_complete` yield) or raises the
task-level failure (`none`). -/

/-- One task as the serial executor consumes it (`order` is the integer the
data model prescribes; ties in `order` are broken by list position). -/
structure ETask where
  id : String
  tool_name : String
  reason : String
  order : Int
deriving DecidableEq, Repr

/-- The per-task data stored into `context` / `tools_result` on success. -/
structure SEntry where
  tool_name : String
  reason : String
  result : String
  links : List String
deriving DecidableEq, Repr

/-- Python `dict` assignment `d[k] = v` on an insertion-ordered association
list: replace in place if the key exists, else append. -/
def dictInsert (k : String) (v : α) : List (String × α) → List (String × α)
  | [] => [(k, v)]
  | (k2, v2) :: rest =>
      if k2 == k then (k, v) :: rest else (k2, v2) :: dictInsert k v rest

/-- `tasks.sort(key=lambda x: x.get("order", 1))`: Python's stable ascending
sort by the `order` key.  (Every stable sort by the same key computes the
same list, so `List.mergeSort` is that sort.) -/
def sortTasks (tasks : List ETask) : List ETask :=
  tasks.mergeSort (fun a b => a.order ≤ b.order)

/-- The `for i, task in enumerate(tasks)` loop of `serial_execute_tools`:
execute the tasks strictly one at a time; a task's terminal failure is caught
by the per-task `except`, logged, and the loop `continue`s; a success stores
its entry into the context and the aggregate result map and extends the link
list.  Returns (yielded events, aggregate `tools_result`, `all_links`). -/
def runTasks (exec : ETask → List (String × SEntry) → Option SEntry) :
    List ETask → List (String × SEntry) → List String →
    List Event × List (String × SEntry) × List String
  | [], acc, links => ([.aggregateEv], acc, links)
  | t :: rest, acc, links =>
    match exec t acc with
    | some entry =>
      let out := runTasks exec rest (dictInsert t.id entry acc) (links ++ entry.links)
      (.taskStart t.id :: .optimizerRun :: .taskComplete t.id :: out.1, out.2)
    | none =>
      let out := runTasks exec rest acc links
      (.taskStart t.id :: .optimizerRun :: .taskFailedEv t.id :: out.1, out.2)

/-- `ToolExecutor.serial_execute_tools`: yield the start notice, sort the
plan's tasks by `order` (stable), run them serially over an empty context,
and yield the final aggregate (`status`/`result`/`link`). -/
def serial_execute_tools (exec : ETask → List (String × SEntry) → Option SEntry)
    (tasks : List ETask) : List Event × List (String × SEntry) × List String :=
  let out := runTasks exec (sortTasks tasks) [] []
  (.serialStart :: (if tasks.isEmpty then [.errorNoTool] else []) ++ out.1, out.2)

/-- `ToolExecutor.execute_tools`: after the opening progress yields and the
intent-parse debug yield, a plan without tasks yields the
`未找到合适的工具` error and returns — no optimizer call, no tool invocation;
otherwise execution is delegated to `serial_execute_tools`. -/
def execute_tools (exec : ETask → List (String × SEntry) → Option SEntry)
    (planTasks : List ETask) : List Event :=
  .thinkingAnalyze :: .delay :: .intentDebug :: .delay ::
  (if planTasks.isEmpty then [.errorNoTool]
   else (serial_execute_tools exec planTasks).1)

/-- Projection of an execution trace onto task start/finish marks:
`(true, id)` when the task's execution starts, `(false, id)` when it finishes
(successfully or by terminal failure).  All other events are dropped. -/
def sfProj : Event → Option (Bool × String)
  | .taskStart id => some (true, id)
  | .taskComplete id => some (false, id)
  | .taskFailedEv id => some (false, id)
  | _ => none

/-! # Theorems -/

/-- The Boolean enum membership test agrees with its claim-side reading. -/
theorem enumCheck_iff (items : List EnumItem) (v : Json) :
    enumCheck items v = true ↔ isAllowedValue items v := by
  unfold enumCheck isAllowedValue
  split
  · cases v <;> simp
  · rw [List.any_eq_true]
    constructor
    · rintro ⟨it, hmem, hit⟩
      cases it with
      | prim w => exact ⟨w, hmem, by simpa using hit⟩
      | obj n d => simp at hit
    · rintro ⟨w, hmem, hw⟩
      exact ⟨.prim w, hmem, by simpa using hw⟩

/-- C7: `_validate_parameters` returns `True` exactly when every parameter
marked required in the schema is present in the supplied mapping and every
supplied value for an enum-constrained parameter is one of the allowed
values, where for an enum given as a list of `{name, description}` objects
the allowed values are those objects' `name` fields. -/
theorem validate_parameters_iff (parameters : List (String × Json))
    (schema : List (String × ParamInfo)) :
    _validate_parameters parameters schema = true ↔
      ((∀ p ∈ schema, p.2.required = true → ∃ v, (p.1, v) ∈ parameters)
        ∧ ∀ q ∈ parameters, ∀ info, schema.lookup q.1 = some info →
            ∀ items, info.enum = some items → isAllowedValue items q.2) := by
  unfold _validate_parameters
  rw [Bool.and_eq_true, List.all_eq_true, List.all_eq_true]
  apply and_congr
  · refine forall_congr' fun p => imp_congr_right fun hp => ?_
    by_cases hr : p.2.required = true
    · simp only [hr, Bool.not_true, Bool.false_or, List.any_eq_true, beq_iff_eq,
        forall_const]
      constructor
      · rintro ⟨q, hq, he⟩
        have hq2 : (p.1, q.2) = q := by
          rw [← he]
        exact ⟨q.2, hq2 ▸ hq⟩
      · rintro ⟨v, hv⟩
        exact ⟨(p.1, v), hv, rfl⟩
    · simp [Bool.not_eq_true] at hr
      simp [hr]
  · refine forall_congr' fun q => imp_congr_right fun hq => ?_
    cases hl : schema.lookup q.1 with
    | none => simp [hl]
    | some info =>
      cases he : info.enum with
      | none => simp [hl, he]
      | some items => simp [hl, he, enumCheck_iff]

/-- Witness for C7: a concrete schema (one required, enum-of-objects
parameter) and a matching parameter mapping, validated by the theorem. -/
theorem validate_parameters_iff_witness :
    (∀ p ∈ [("style", ParamInfo.mk true
        (some [EnumItem.obj "动漫风格" "anime", EnumItem.obj "写实风格" "real"]))],
        p.2.required = true → ∃ v, (p.1, v) ∈ [("style", Json.jstr "动漫风格")])
    ∧ ∀ q ∈ [("style", Json.jstr "动漫风格")], ∀ info,
        List.lookup q.1 [("style", ParamInfo.mk true
          (some [EnumItem.obj "动漫风格" "anime", EnumItem.obj "写实风格" "real"]))] = some info →
        ∀ items, info.enum = some items → isAllowedValue items q.2 :=
  (validate_parameters_iff _ _).mp rfl

/-- A candidate task kept by the validation loop names a registered tool. -/
theorem toolNameLookup_mem (tools : List String) (v : Json) (s : String)
    (h : toolNameLookup tools v = .ok (some s)) : s ∈ tools := by
  cases v <;> simp [toolNameLookup] at h
  case jstr s2 =>
    rcases h with ⟨hc, hs⟩
    subst hs
    simpa using hc

/-- Every task the validation loop of `parse_intent` accumulates names a
registered tool. -/
theorem buildTasks_registered (tools : List String) :
    ∀ (elems : List Json) (acc : List PTask),
      (∀ t ∈ acc, t.tool_name ∈ tools) →
      ∀ ts, buildTasks tools elems acc = .ok ts →
      ∀ t ∈ ts, t.tool_name ∈ tools := by
  intro elems
  induction elems with
  | nil =>
    intro acc hacc ts h t ht
    simp only [buildTasks, Except.ok.injEq] at h
    subst h
    exact hacc t (List.mem_reverse.mp ht)
  | cons j rest ih =>
    intro acc hacc ts h t ht
    cases j <;> simp only [buildTasks] at h <;>
      try exact ih acc hacc ts h t ht
    case jobj fields =>
      cases hl : toolNameLookup tools (jsonGetD fields "tool_name" Json.null) with
      | error e => rw [hl] at h; cases h
      | ok o =>
        rw [hl] at h
        cases o with
        | none => exact ih acc hacc ts h t ht
        | some s =>
          refine ih _ ?_ ts h t ht
          intro u hu
          rcases List.mem_cons.mp hu with hu | hu
          · rw [hu]
            exact toolNameLookup_mem tools _ s hl
          · exact hacc u hu

/-- C6: for every model output, the plan `parse_intent` returns only
references registered tools (candidates naming an unregistered tool are
discarded); the plan may be empty; and malformed (unparsable) model output
degrades to the empty plan `tasks: []` instead of raising. -/
theorem intent_plan_guarantee (tools : List String) (response : Option Json) :
    (∀ t ∈ (parse_intent tools response).tasks, t.tool_name ∈ tools)
    ∧ parse_intent tools none =
        { tasks := [], execution_mode := none, execution_strategy := none } := by
  refine ⟨?_, rfl⟩
  intro t ht
  unfold parse_intent at ht
  cases response with
  | none => simp at ht
  | some j =>
    cases j <;> simp at ht
    case jobj fields =>
      cases hi : iterElems (jsonGetD fields "tasks" (Json.jarr [])) with
      | error e => rw [hi] at ht; simp at ht
      | ok elems =>
        rw [hi] at ht
        dsimp only at ht
        cases hb : buildTasks tools elems [] with
        | error e => rw [hb] at ht; simp at ht
        | ok ts =>
          rw [hb] at ht
          dsimp only at ht
          exact buildTasks_registered tools elems [] (by simp) ts hb t ht

/-- Witness for C6: a parsed model response with one `WeatherTool` candidate
produces a plan whose (single) task names a registered tool. -/
theorem intent_plan_guarantee_witness :
    (PTask.mk (.jstr "task_1") "WeatherTool" (.jstr "") (.jnum 1) (.jarr [])).tool_name
      ∈ ["WeatherTool", "ChatTool"] :=
  (intent_plan_guarantee ["WeatherTool", "ChatTool"]
      (some (.jobj [("tasks", .jarr
        [.jobj [("tool_name", .jstr "WeatherTool"), ("order", .jnum 1)]])]))).1
    _ (List.Mem.head _)

/-- The optimizer's retry loop makes at most `attempts + budget` attempts. -/
theorem optLoop_attempts_le (schema : List (String × ParamInfo))
    (tool_name : String) (oracle : ℕ → Option RespObj) :
    ∀ (budget attempts : ℕ) (events : List Event),
      (optLoop schema tool_name oracle budget attempts events).attempts ≤
        attempts + budget := by
  intro budget
  induction budget with
  | zero => intro attempts events; simp [optLoop]
  | succ b ih =>
    intro attempts events
    unfold optLoop
    cases attemptResult schema tool_name (oracle attempts) with
    | some obj => simp
    | none =>
      by_cases hb : b = 0
      · simp [hb]
      · simp only [hb, if_false]
        have := ih (attempts + 1) (events ++ [.delay, .retryNotice, .delay, .delay])
        omega

/-- C5: when every attempt fails (JSON-parse or validation failure), the
optimizer makes exactly 3 attempts — each failure followed by the retry
notice and sleeps — and, in general, never more than 3; after the third
failure it returns the empty parameter object for the tool instead of
raising. -/
theorem optimizer_retry_exhaustion (schema : List (String × ParamInfo))
    (tool_name : String) :
    (∀ oracle, (∀ n, attemptResult schema tool_name (oracle n) = none) →
      optimize_parameters schema tool_name oracle =
        { attempts := 3,
          events := [.delay, .retryNotice, .delay, .delay,
                     .delay, .retryNotice, .delay, .delay,
                     .delay, .retryNotice, .delay, .maxRetryNotice, .delay],
          result := [(tool_name, [])] })
    ∧ ∀ oracle, (optimize_parameters schema tool_name oracle).attempts ≤ 3 := by
  constructor
  · intro oracle h
    simp [optimize_parameters, optLoop, h 0, h 1, h 2]
  · intro oracle
    simpa [optimize_parameters] using
      optLoop_attempts_le schema tool_name oracle 3 0 []

/-- Witness for C5: an oracle whose model response never parses; three
attempts, then the empty parameter object. -/
theorem optimizer_retry_exhaustion_witness :
    optimize_parameters [] "ImageGeneratorTool" (fun _ => none) =
      { attempts := 3,
        events := [.delay, .retryNotice, .delay, .delay,
                   .delay, .retryNotice, .delay, .delay,
                   .delay, .retryNotice, .delay, .maxRetryNotice, .delay],
        result := [("ImageGeneratorTool", [])] } :=
  (optimizer_retry_exhaustion [] "ImageGeneratorTool").1 (fun _ => none)
    (fun _ => rfl)

/-- One unrolling of the per-task `while` loop while its guard holds. -/
theorem execLoop_succ (verbose : Bool) (envs : ℕ → IterEnv)
    (fuel iter retry inv : ℕ) (evs : List Event) (h : retry < 3) :
    execLoop verbose envs (fuel + 1) iter retry inv evs =
      match execIter verbose retry (envs iter) with
      | .next r dinv devs =>
          execLoop verbose envs fuel (iter + 1) r (inv + dinv) (evs ++ devs)
      | .stop oc dinv devs =>
          { invocations := inv + dinv, events := evs ++ devs, outcome := oc } := by
  conv_lhs => rw [execLoop]
  rw [if_pos h]

/-- With `verbose = False`, an iteration of the per-task loop never reaches
the tool invocation and never changes `current_retry`: after any number of
iterations the loop is still running, with no invocation made. -/
theorem execLoop_not_verbose (envs : ℕ → IterEnv) :
    ∀ (fuel iter retry inv : ℕ) (evs : List Event), retry < 3 →
      (execLoop false envs fuel iter retry inv evs).outcome = .outOfFuel retry ∧
      (execLoop false envs fuel iter retry inv evs).invocations = inv := by
  intro fuel
  induction fuel with
  | zero => intro iter retry inv evs h; simp [execLoop]
  | succ f ih =>
    intro iter retry inv evs h
    rw [execLoop_succ false envs f iter retry inv evs h]
    simp only [execIter, Bool.false_eq_true, if_false]
    simpa using ih (iter + 1) retry inv (evs ++ [.optimizerRun]) h

/-- C1 (code bug): the claim's retry bound holds only on the `verbose = True`
path.  First conjunct — the failing input: with `verbose = False` (the
`ToolExecutor` dataclass default) the tool invocation sits inside the
`if verbose:` block, so for any task the loop never invokes the tool and
never terminates (`current_retry` stays 0 forever).  Second conjunct — the
claimed (intended) behavior, which the `verbose = True` path does exhibit: a
tool that raises on every invocation is invoked exactly 3 times and the task
then fails with the task-level raise. -/
theorem retry_bound_code_bug :
    (∀ (envs : ℕ → IterEnv) (fuel : ℕ),
      (_execute_single_tool false envs fuel).outcome = .outOfFuel 0 ∧
      (_execute_single_tool false envs fuel).invocations = 0)
    ∧ ∀ (envs : ℕ → IterEnv), (∀ n, (envs n).tool = .raises) →
        ∀ fuel, 3 ≤ fuel →
          _execute_single_tool true envs fuel =
            { invocations := 3,
              events := [.optimizerRun, .retryFailNotice, .delay,
                         .optimizerRun, .retryFailNotice, .delay,
                         .optimizerRun, .errorNotice],
              outcome := .taskFailed } := by
  constructor
  · intro envs fuel
    exact execLoop_not_verbose envs fuel 0 0 0 [] (by omega)
  · intro envs h fuel hf
    obtain ⟨k, rfl⟩ : ∃ k, fuel = k + 3 := ⟨fuel - 3, by omega⟩
    unfold _execute_single_tool
    rw [show k + 3 = (k + 2) + 1 from rfl,
      execLoop_succ true envs (k + 2) 0 0 0 [] (by omega)]
    simp only [execIter, h 0, exceptHandler]
    norm_num
    rw [show k + 2 = (k + 1) + 1 from rfl,
      execLoop_succ true envs (k + 1) 1 1 1 _ (by omega)]
    simp only [execIter, h 1, exceptHandler]
    norm_num
    rw [show k + 1 = k + 1 from rfl,
      execLoop_succ true envs k 2 2 2 _ (by omega)]
    simp only [execIter, h 2, exceptHandler]
    norm_num

/-- Witness for C1: with an always-raising tool, the `verbose = False` loop
has made no invocation after 7 iterations and is still running, while the
`verbose = True` loop invokes the tool exactly 3 times and fails the task. -/
theorem retry_bound_code_bug_witness :
    ((_execute_single_tool false (fun _ => ⟨.raises, false⟩) 7).outcome =
        .outOfFuel 0 ∧
      (_execute_single_tool false (fun _ => ⟨.raises, false⟩) 7).invocations = 0)
    ∧ _execute_single_tool true (fun _ => ⟨.raises, false⟩) 7 =
        { invocations := 3,
          events := [.optimizerRun, .retryFailNotice, .delay,
                     .optimizerRun, .retryFailNotice, .delay,
                     .optimizerRun, .errorNotice],
          outcome := .taskFailed } :=
  ⟨retry_bound_code_bug.1 (fun _ => ⟨.raises, false⟩) 7,
    retry_bound_code_bug.2 (fun _ => ⟨.raises, false⟩) (fun _ => rfl) 7
      (by omega)⟩

/-- C9: a result-formatting failure is a retry trigger in the per-task loop.
First conjunct: the tool call succeeds on both attempts but formatting fails
on the first — the loop emits the formatting retry notice, sleeps, re-runs
the whole attempt, and succeeds, having invoked the tool twice.  Second
conjunct: formatting failures and tool errors share the same 3-attempt
budget — two formatting failures followed by one tool error exhaust it and
the task fails after exactly 3 invocations. -/
theorem format_failure_retry_trigger :
    _execute_single_tool true
        (fun n => if n == 0 then ⟨.returnsValue, true⟩ else ⟨.returnsValue, false⟩)
        10 =
      { invocations := 2,
        events := [.optimizerRun, .retryFormatNotice, .delay,
                   .optimizerRun, .taskComplete ""],
        outcome := .success }
    ∧ _execute_single_tool true
        (fun n => if n ≤ 1 then ⟨.returnsValue, true⟩ else ⟨.raises, false⟩)
        10 =
      { invocations := 3,
        events := [.optimizerRun, .retryFormatNotice, .delay,
                   .optimizerRun, .retryFormatNotice, .delay,
                   .optimizerRun, .errorNotice],
        outcome := .taskFailed } := by
  constructor <;> rfl

/-- Projected onto start/finish marks, the serial loop's trace is one
`(start, finish)` block per task, in list order: every task finishes
(successfully or not) before the next one starts. -/
theorem runTasks_proj (exec : ETask → List (String × SEntry) → Option SEntry) :
    ∀ (ts : List ETask) (acc : List (String × SEntry)) (links : List String),
      (runTasks exec ts acc links).1.filterMap sfProj =
        ts.flatMap fun t => [(true, t.id), (false, t.id)] := by
  intro ts
  induction ts with
  | nil => intro acc links; simp [runTasks, sfProj]
  | cons t rest ih =>
    intro acc links
    unfold runTasks
    cases exec t acc with
    | some entry => simp [sfProj, ih]
    | none => simp [sfProj, ih]

/-- Every task of the list is started by the serial loop, no matter which
earlier tasks failed. -/
theorem runTasks_starts (exec : ETask → List (String × SEntry) → Option SEntry) :
    ∀ (ts : List ETask) (acc : List (String × SEntry)) (links : List String),
      ∀ t ∈ ts, Event.taskStart t.id ∈ (runTasks exec ts acc links).1 := by
  intro ts
  induction ts with
  | nil => intro acc links t ht; simp at ht
  | cons u rest ih =>
    intro acc links t ht
    rcases List.mem_cons.mp ht with rfl | ht
    · unfold runTasks
      cases exec t acc <;> simp
    · unfold runTasks
      cases exec u acc with
      | some entry => simp [ih _ _ t ht]
      | none => simp [ih _ _ t ht]

/-- `d[k] = v` then lookup: the new binding shadows only its own key. -/
theorem lookup_dictInsert (k : String) (v : α) (l : List (String × α))
    (id : String) :
    (dictInsert k v l).lookup id = if id = k then some v else l.lookup id := by
  induction l with
  | nil =>
    by_cases h : id = k
    · simp [dictInsert, List.lookup, h]
    · have hb : (id == k) = false := by simpa using h
      simp [dictInsert, List.lookup, hb, h]
  | cons p rest ih =>
    obtain ⟨k2, v2⟩ := p
    by_cases h2 : k2 = k
    · subst h2
      by_cases h : id = k2
      · simp [dictInsert, List.lookup, h]
      · have hb : (id == k2) = false := by simpa using h
        simp [dictInsert, List.lookup, hb, h]
    · have hb2 : (k2 == k) = false := by simpa using h2
      by_cases h : id = k2
      · have hb : (id == k2) = true := by simpa using h
        have hik : ¬id = k := fun he => h2 ((h.symm.trans he) : k2 = k)
        simp [dictInsert, hb2, List.lookup, hb, hik]
      · have hb : (id == k2) = false := by simpa using h
        simp [dictInsert, hb2, List.lookup, hb, ih]

/-- The aggregate result map has an entry for a task id exactly when that id
was already in the accumulator or a `tool_complete` was yielded for it. -/
theorem runTasks_complete_lookup
    (exec : ETask → List (String × SEntry) → Option SEntry) :
    ∀ (ts : List ETask) (acc : List (String × SEntry)) (links : List String)
      (id : String),
      (((runTasks exec ts acc links).2.1.lookup id).isSome = true ↔
        ((acc.lookup id).isSome = true ∨
          Event.taskComplete id ∈ (runTasks exec ts acc links).1)) := by
  intro ts
  induction ts with
  | nil => intro acc links id; simp [runTasks]
  | cons t rest ih =>
    intro acc links id
    unfold runTasks
    cases exec t acc with
    | some entry =>
      simp only [List.mem_cons]
      rw [ih]
      rw [lookup_dictInsert]
      by_cases h : id = t.id <;> simp [h]
    | none =>
      simp only [List.mem_cons]
      rw [ih]
      simp

/-- A task id that is neither in the accumulator nor among the remaining
tasks never appears in the aggregate result map. -/
theorem runTasks_lookup_none
    (exec : ETask → List (String × SEntry) → Option SEntry) :
    ∀ (ts : List ETask) (acc : List (String × SEntry)) (links : List String)
      (id : String), acc.lookup id = none → (∀ t ∈ ts, t.id ≠ id) →
      (runTasks exec ts acc links).2.1.lookup id = none := by
  intro ts
  induction ts with
  | nil => intro acc links id hacc _; simpa [runTasks] using hacc
  | cons t rest ih =>
    intro acc links id hacc hne
    unfold runTasks
    cases exec t acc with
    | some entry =>
      refine ih _ _ id ?_ fun u hu => hne u (List.mem_cons_of_mem t hu)
      rw [lookup_dictInsert, if_neg (fun h => hne t (List.mem_cons_self t rest) h.symm)]
      exact hacc
    | none =>
      exact ih _ _ id hacc fun u hu => hne u (List.mem_cons_of_mem t hu)

/-- With distinct task ids (and an accumulator disjoint from them), a task
that raised its terminal failure is absent from the aggregate result map. -/
theorem runTasks_failed_none
    (exec : ETask → List (String × SEntry) → Option SEntry) :
    ∀ (ts : List ETask) (acc : List (String × SEntry)) (links : List String)
      (id : String),
      (ts.map fun t => t.id).Nodup → (∀ t ∈ ts, acc.lookup t.id = none) →
      Event.taskFailedEv id ∈ (runTasks exec ts acc links).1 →
      (runTasks exec ts acc links).2.1.lookup id = none := by
  intro ts
  induction ts with
  | nil => intro acc links id _ _ hmem; simp [runTasks] at hmem
  | cons t rest ih =>
    intro acc links id hnd hacc hmem
    have hnd2 : (rest.map fun u => u.id).Nodup := (List.nodup_cons.mp hnd).2
    have hni : t.id ∉ rest.map fun u => u.id := (List.nodup_cons.mp hnd).1
    unfold runTasks at hmem ⊢
    cases hE : exec t acc with
    | some entry =>
      rw [hE] at hmem
      simp only [List.mem_cons] at hmem
      rcases hmem with h | h | h | hmem
      · cases h
      · cases h
      · cases h
      · refine ih _ _ id hnd2 ?_ hmem
        intro u hu
        rw [lookup_dictInsert,
          if_neg (fun (he : u.id = t.id) => hni (he ▸ List.mem_map_of_mem _ hu))]
        exact hacc u (List.mem_cons_of_mem t hu)
    | none =>
      rw [hE] at hmem
      simp only [List.mem_cons] at hmem
      rcases hmem with h | h | h | hmem
      · cases h
      · cases h
      · have hid : id = t.id := Event.taskFailedEv.inj h
        subst hid
        refine runTasks_lookup_none exec rest acc links t.id
          (hacc t (List.mem_cons_self t rest)) ?_
        intro u hu he
        exact hni (he ▸ List.mem_map_of_mem _ hu)
      · exact ih _ _ id hnd2 (fun u hu => hacc u (List.mem_cons_of_mem t hu)) hmem

/-- The comparison key of `tasks.sort(key=lambda x: ...)` is transitive. -/
theorem orderLe_trans (a b c : ETask) :
    (decide (a.order ≤ b.order)) → (decide (b.order ≤ c.order)) →
    (decide (a.order ≤ c.order)) := by
  simp only [decide_eq_true_eq]
  omega

/-- The comparison key of `tasks.sort(key=lambda x: ...)` is total. -/
theorem orderLe_total (a b : ETask) :
    decide (a.order ≤ b.order) || decide (b.order ≤ a.order) := by
  simp only [Bool.or_eq_true, decide_eq_true_eq]
  omega

/-- C2: the executor sorts the plan's tasks by `order` ascending with a
stable sort and runs them strictly one at a time: (1) the trace is one
start/finish block per task in sorted order — each task completes or fails
before the next starts; (2) the executed order is non-decreasing in `order`;
(3) the sort is stable — any two tasks in key order (in particular, with
equal `order`) keep their original relative position; (4) concretely, for
tasks `[{order:2,id:A},{order:1,id:B}]` the executed order is B then A. -/
theorem serial_order_invariant
    (exec : ETask → List (String × SEntry) → Option SEntry)
    (tasks : List ETask) :
    ((serial_execute_tools exec tasks).1.filterMap sfProj =
        (sortTasks tasks).flatMap fun t => [(true, t.id), (false, t.id)])
    ∧ (sortTasks tasks).Pairwise (fun a b => a.order ≤ b.order)
    ∧ (∀ a b : ETask, [a, b].Sublist tasks → a.order ≤ b.order →
        [a, b].Sublist (sortTasks tasks))
    ∧ sortTasks [{ id := "A", tool_name := "T", reason := "", order := 2 },
                 { id := "B", tool_name := "T", reason := "", order := 1 }]
        = [{ id := "B", tool_name := "T", reason := "", order := 1 },
           { id := "A", tool_name := "T", reason := "", order := 2 }] := by
  refine ⟨?_, ?_, ?_, ?_⟩
  · cases h : tasks.isEmpty <;>
      simp [serial_execute_tools, h, sfProj, runTasks_proj]
  · exact (List.sorted_mergeSort orderLe_trans orderLe_total tasks).imp
      (fun h => by simpa using h)
  · intro a b hsub hab
    exact List.pair_sublist_mergeSort orderLe_trans orderLe_total
      (by simpa using hab) hsub
  · simp [sortTasks, List.mergeSort]

/-- Witness for C2: two tasks with equal `order` keep their original
relative position in the executed order. -/
theorem serial_order_invariant_witness :
    [({ id := "X", tool_name := "T", reason := "", order := 1 } : ETask),
     { id := "Y", tool_name := "T", reason := "", order := 1 }].Sublist
      (sortTasks [{ id := "X", tool_name := "T", reason := "", order := 1 },
                  { id := "Y", tool_name := "T", reason := "", order := 1 }]) :=
  (serial_order_invariant (fun _ _ => none) _).2.2.1 _ _
    (List.Sublist.refl _) (by decide)

/-- C3: task failures are isolated.  For any plan (with distinct task ids):
every task is started, whatever happened before it; the aggregate result map
has an entry for a task id exactly when that task's `tool_complete` was
yielded; and a task that exhausted its retries (yielded the terminal
failure) is omitted from the aggregate. -/
theorem failure_isolation
    (exec : ETask → List (String × SEntry) → Option SEntry)
    (tasks : List ETask) (hn : (tasks.map fun t => t.id).Nodup) :
    (∀ t ∈ tasks, Event.taskStart t.id ∈ (serial_execute_tools exec tasks).1)
    ∧ (∀ id, (((serial_execute_tools exec tasks).2.1.lookup id).isSome = true ↔
        Event.taskComplete id ∈ (serial_execute_tools exec tasks).1))
    ∧ ∀ id, Event.taskFailedEv id ∈ (serial_execute_tools exec tasks).1 →
        (serial_execute_tools exec tasks).2.1.lookup id = none := by
  have hns : ((sortTasks tasks).map fun t => t.id).Nodup :=
    (((List.mergeSort_perm tasks _).map _).nodup_iff).mpr hn
  refine ⟨?_, ?_, ?_⟩
  · intro t ht
    have hts : t ∈ sortTasks tasks := List.mem_mergeSort.mpr ht
    have := runTasks_starts exec (sortTasks tasks) [] [] t hts
    cases h : tasks.isEmpty <;> simp [serial_execute_tools, h, this]
  · intro id
    have := runTasks_complete_lookup exec (sortTasks tasks) [] [] id
    cases h : tasks.isEmpty <;>
      simpa [serial_execute_tools, h] using this
  · intro id hmem
    have hmem2 : Event.taskFailedEv id ∈
        (runTasks exec (sortTasks tasks) [] []).1 := by
      cases h : tasks.isEmpty <;>
        simpa [serial_execute_tools, h] using hmem
    have := runTasks_failed_none exec (sortTasks tasks) [] [] id hns
      (by simp) hmem2
    cases h : tasks.isEmpty <;> simpa [serial_execute_tools, h] using this

/-- Witness for C3: a three-task plan whose middle task fails; the last task
is still started. -/
theorem failure_isolation_witness :
    Event.taskStart "task_3" ∈
      (serial_execute_tools
        (fun t _ => if t.id == "task_2" then none
          else some { tool_name := t.tool_name, reason := "", result := "ok",
                      links := [] })
        [{ id := "task_1", tool_name := "WeatherTool", reason := "", order := 1 },
         { id := "task_2", tool_name := "SearchTool", reason := "", order := 2 },
         { id := "task_3", tool_name := "ChatTool", reason := "", order := 3 }]).1 :=
  (failure_isolation _ _ (by decide)).1
    { id := "task_3", tool_name := "ChatTool", reason := "", order := 3 }
    (by simp)

/-- C4: a plan with zero tasks makes `execute_tools` yield the
`未找到合适的工具` error and return: no parameter optimization is run and no
task is ever started. -/
theorem empty_plan_invariant
    (exec : ETask → List (String × SEntry) → Option SEntry)
    (planTasks : List ETask) (h : planTasks = []) :
    execute_tools exec planTasks =
      [.thinkingAnalyze, .delay, .intentDebug, .delay, .errorNoTool]
    ∧ Event.errorNoTool ∈ execute_tools exec planTasks
    ∧ ∀ e ∈ execute_tools exec planTasks,
        e ≠ .optimizerRun ∧ ∀ id, e ≠ .taskStart id := by
  subst h
  refine ⟨rfl, by simp [execute_tools], ?_⟩
  intro e he
  rw [show execute_tools exec [] =
    [.thinkingAnalyze, .delay, .intentDebug, .delay, .errorNoTool] from rfl] at he
  fin_cases he <;> exact ⟨by simp, fun id => by simp⟩

/-- Witness for C4: the empty plan yields exactly the opening notices and
the no-suitable-tool error. -/
theorem empty_plan_invariant_witness :
    execute_tools (fun _ _ => none) [] =
      [.thinkingAnalyze, .delay, .intentDebug, .delay, .errorNoTool] :=
  (empty_plan_invariant (fun _ _ => none) [] rfl).1

/-- C8: when the load snapshot exceeds any default threshold (CPU 80,
memory 85, disk 90), the monitor reports overload and `acquire()` refuses
immediately, leaving the semaphore and the active-task set untouched —
regardless of semaphore availability. -/
theorem overload_refusal (load : SystemLoad) (st : RMState) (tid : ℕ)
    (h : load.cpu_percent > 80 ∨ load.memory_percent > 85 ∨
      load.disk_usage_percent > 90) :
    is_system_overloaded defaultMonitor load = true ∧
    acquire defaultMonitor load st tid = (.refused, st) := by
  have hov : is_system_overloaded defaultMonitor load = true := by
    unfold is_system_overloaded defaultMonitor
    simp only [Bool.or_eq_true, decide_eq_true_eq]
    tauto
  exact ⟨hov, by simp [acquire, hov]⟩

/-- Witness for C8: a CPU-saturated snapshot against an idle manager with
free semaphore permits is still refused. -/
theorem overload_refusal_witness :
    is_system_overloaded defaultMonitor ⟨95, 20, 30, 4, 100, 0⟩ = true ∧
    acquire defaultMonitor ⟨95, 20, 30, 4, 100, 0⟩ ⟨3, []⟩ 7 =
      (.refused, ⟨3, []⟩) :=
  overload_refusal ⟨95, 20, 30, 4, 100, 0⟩ ⟨3, []⟩ 7 (Or.inl (by norm_num))

/-- C10: `format_result` is total at the formatting boundary: it always
returns a record with a display string and a link list; a raise can only
come from a tool-specific formatter, and is caught and turned into an
error-message string that embeds the stringified original result, with an
empty link list. -/
theorem format_result_total
    (fmt : String → Json → Except String (List String × List String))
    (tool_name : String) (res : Json) :
    (∀ e, format_result_body fmt tool_name res = .error e →
        usesSpecificFormatter tool_name res = true ∧ fmt tool_name res = .error e ∧
        format_result fmt tool_name res =
          { result := "结果格式化失败: " ++ e ++ "\n原始结果: " ++ pyStr res,
            links := [] })
    ∧ ∀ r, format_result_body fmt tool_name res = .ok r →
        format_result fmt tool_name res = r := by
  constructor
  · intro e he
    have h1 : usesSpecificFormatter tool_name res = true ∧
        fmt tool_name res = .error e := by
      unfold format_result_body at he
      by_cases hu : usesSpecificFormatter tool_name res = true
      · refine ⟨hu, ?_⟩
        rw [if_pos hu] at he
        cases hf : fmt tool_name res with
        | error e2 =>
          rw [hf] at he
          injection he with h
          rw [h]
        | ok pr =>
          rw [hf] at he
          cases pr
          simp at he
      · rw [if_neg hu] at he
        split at he <;> simp at he
    exact ⟨h1.1, h1.2, by simp [format_result, he]⟩
  · intro r hr
    simp [format_result, hr]

/-- Witness for C10: a formatter that raises on a weather result; the
boundary returns the error-message record with empty links. -/
theorem format_result_total_witness :
    format_result (fun _ _ => .error "连接失败") "WeatherTool" (.jstr "武汉") =
      { result := "结果格式化失败: " ++ "连接失败" ++ "\n原始结果: " ++
          pyStr (Json.jstr "武汉"),
        links := [] } :=
  ((format_result_total (fun _ _ => .error "连接失败") "WeatherTool"
      (.jstr "武汉")).1 "连接失败" rfl).2.2

end AW
